import Mathlib

/-!
Shallow embedding of the Student Management System (src/app.js):
an Express + Mongoose CRUD service over a single `Student` resource,
with a hardcoded 3-element fallback dataset used on read-path failures.

The persistence collaborator (Mongoose/MongoDB) is external to the
repository; its narrow contract (find, findById, save with schema
validation, findByIdAndUpdate with runValidators, findByIdAndDelete,
ObjectId format, connection readyState) is modelled explicitly below.
The route handlers themselves are translated line by line from
src/app.js.
-/

namespace StudentApp

/-- A stored Student document.  `_id` is the collaborator-assigned
identifier.  `age` is `Option Int`: `none` models the JavaScript `NaN`
that `Number(age)` can produce (src/app.js line 134).  The timestamps
are `Option Nat` because the hardcoded sample students (src/app.js
lines 63-82) are plain objects without `createdAt`/`updatedAt`, while
documents saved through the schema (`timestamps: true`, line 54) carry
them. -/
structure StudentDoc where
  _id : String
  name : String
  age : Option Int
  course : String
  createdAt : Option Nat
  updatedAt : Option Nat
deriving Repr, DecidableEq

/-- The fixed fallback dataset `sampleStudents` (src/app.js lines 63-82). -/
def sampleStudents : List StudentDoc :=
  [ { _id := "686f66da1801707c14d09e60", name := "Alice Johnson",
      age := some 20, course := "Computer Science",
      createdAt := none, updatedAt := none },
    { _id := "686f66da1801707c14d09e61", name := "Bob Smith",
      age := some 22, course := "Mechanical Engineering",
      createdAt := none, updatedAt := none },
    { _id := "686f66da1801707c14d09e62", name := "Charlie Lee",
      age := some 19, course := "Business Administration",
      createdAt := none, updatedAt := none } ]

/-- The course enum of the Mongoose schema (src/app.js lines 43-50). -/
def courseEnum : List String :=
  [ "Computer Science", "Mechanical Engineering", "Electrical Engineering",
    "Business Administration", "Civil Engineering", "Medical Science" ]

/-- The database contents: the collection of stored documents. -/
structure Db where
  docs : List StudentDoc
deriving Repr, DecidableEq

/-- Response bodies produced by the handlers in src/app.js.  `info` is
the aggregate payload of the root route (lines 196-218): message,
status, database-state string, totalStudents, the student list, the
static endpoints description and the static example creation payload. -/
inductive Body where
  | studentList (students : List StudentDoc)
  | studentOne (student : StudentDoc)
  | err (msg : String)
  | deleteOk (message : String) (student : StudentDoc)
  | info (message statusMsg database : String) (totalStudents : Nat)
      (students : List StudentDoc) (endpoints : List (String × String))
      (examplePayload : String × Int × String)
deriving Repr, DecidableEq

/-- An HTTP response: status code and JSON body.  `res.json(x)` with no
explicit status is status 200. -/
structure Response where
  status : Nat
  body : Body
deriving Repr, DecidableEq

/-- Outcome of the collaborator's `Student.find()` call: a successful
list of documents, or a thrown error (e.g. the collaborator is
disconnected, or an unexpected query failure). -/
inductive FindOutcome where
  | ok (docs : List StudentDoc)
  | fail
deriving Repr, DecidableEq

/-- GET /students (src/app.js lines 89-96): on success the fetched
list is returned as-is (even when empty); a thrown error is caught and
the fallback dataset is returned instead.  Both paths use `res.json`,
hence status 200. -/
def listStudents (outcome : FindOutcome) : Response :=
  match outcome with
  | .ok students => { status := 200, body := .studentList students }
  | .fail => { status := 200, body := .studentList sampleStudents }

/-- The static `endpoints` object of the root route (src/app.js
lines 203-210). -/
def endpointsInfo : List (String × String) :=
  [ ("GET /", "API info with students (this page)"),
    ("GET /students", "Get all students"),
    ("GET /students/:id", "Get single student"),
    ("POST /students", "Create new student"),
    ("PUT /students/:id", "Update student"),
    ("DELETE /students/:id", "Delete student") ]

/-- The static `examplePayload.createStudent` object of the root route
(src/app.js lines 211-217). -/
def exampleCreatePayload : String × Int × String :=
  ("Student Name", 20, "Computer Science")

/-- The student list assembled by the root route's inner try/catch
(src/app.js lines 186-194): a failed fetch or an empty successful
fetch is replaced by the fallback dataset. -/
def rootStudents (outcome : FindOutcome) : List StudentDoc :=
  match outcome with
  | .ok students => if students.length = 0 then sampleStudents else students
  | .fail => sampleStudents

/-- GET / (src/app.js lines 184-228).  `readyState` is the
collaborator's connection state observed at request time
(`mongoose.connection.readyState`, line 200); 1 means connected.  The
inner try/catch absorbs any `Student.find()` error, so the outer catch
(lines 219-227) is unreachable: response assembly is pure and cannot
throw. -/
def rootHandler (outcome : FindOutcome) (readyState : Nat) : Response :=
  let students := rootStudents outcome
  { status := 200,
    body := .info "🚀 Student Management System is running!" "Server is active"
      (if readyState = 1 then "Connected ✅" else "Disconnected ❌")
      students.length students endpointsInfo exampleCreatePayload }

/-- The student list carried by an `info` body (empty for the other
body shapes). -/
def Body.infoStudents : Body → List StudentDoc
  | .info _ _ _ _ students _ _ => students
  | _ => []

/-- The welcome `message` carried by an `info` body. -/
def Body.infoMessage : Body → String
  | .info message _ _ _ _ _ _ => message
  | _ => ""

/-- The `status` string carried by an `info` body. -/
def Body.infoStatus : Body → String
  | .info _ statusMsg _ _ _ _ _ => statusMsg
  | _ => ""

/-- The `totalStudents` count carried by an `info` body. -/
def Body.infoTotal : Body → Nat
  | .info _ _ _ total _ _ _ => total
  | _ => 0

/-- The `database` connection-state string carried by an `info` body. -/
def Body.infoDatabase : Body → String
  | .info _ _ database _ _ _ _ => database
  | _ => ""

/-- The `endpoints` description carried by an `info` body. -/
def Body.infoEndpoints : Body → List (String × String)
  | .info _ _ _ _ _ endpoints _ => endpoints
  | _ => []

/-- The `examplePayload` carried by an `info` body. -/
def Body.infoExample : Body → String × Int × String
  | .info _ _ _ _ _ _ ex => ex
  | _ => ("", 0, "")

/-- Modelled from the collaborator's contract: a MongoDB ObjectId in
string form is 24 hexadecimal characters; any other string makes
`findById`/`findByIdAndUpdate`/`findByIdAndDelete` throw a CastError. -/
def validObjectId (id : String) : Bool :=
  id.length == 24 && id.data.all (fun c => c.isDigit || ('a' ≤ c && c ≤ 'f'))

/-- Modelled from the collaborator's contract: the message of the
CastError thrown for a malformed identifier. -/
def castErrMsg (id : String) : String :=
  "Cast to ObjectId failed for value \"" ++ id ++ "\" (type string) at path \"_id\" for model \"Student\""

/-- Modelled from the collaborator's contract: `Student.findById`
throws on a malformed identifier, otherwise resolves to the matching
document or `null` (`none`). -/
def findById (id : String) (db : Db) : Except String (Option StudentDoc) :=
  if validObjectId id then
    .ok (db.docs.find? (fun d => d._id == id))
  else
    .error (castErrMsg id)

/-- GET /students/:id (src/app.js lines 99-109): a thrown CastError is
caught and answered with 400 "Invalid student ID"; `null` yields 404
"Student not found"; otherwise 200 with the single document. -/
def getStudent (id : String) (db : Db) : Response :=
  match findById id db with
  | .error _ => { status := 400, body := .err "Invalid student ID" }
  | .ok none => { status := 404, body := .err "Student not found" }
  | .ok (some s) => { status := 200, body := .studentOne s }

/-- The `age` field of a JSON request body as the handler sees it:
absent (`undefined`), a JSON number, or a JSON string.  Strings matter
because POST coerces with `Number(age)` (src/app.js line 134). -/
inductive JsAge where
  | undef
  | num (n : Int)
  | str (s : String)
deriving Repr, DecidableEq

/-- JavaScript truthiness of the `age` value: `undefined`, `0` and `""`
are falsy. -/
def JsAge.falsy : JsAge → Bool
  | .undef => true
  | .num n => n == 0
  | .str s => s == ""

/-- Decimal value of a non-empty digit string; `none` otherwise. -/
def digitsToNat (cs : List Char) : Option Nat :=
  if cs ≠ [] && cs.all Char.isDigit then
    some (cs.foldl (fun acc c => acc * 10 + (c.toNat - 48)) 0)
  else
    none

/-- JavaScript numeric coercion of a string, restricted to integer
literals: `""` coerces to 0, an optionally negated digit string to its
value, anything else to `NaN` (`none`). -/
def strToNumber (s : String) : Option Int :=
  match s.data with
  | [] => some 0
  | '-' :: rest => (digitsToNat rest).map (fun n => -(n : Int))
  | l => (digitsToNat l).map (fun n => (n : Int))

/-- JavaScript `Number(·)` coercion of the `age` value: `none` models
`NaN` (from `undefined` or a non-numeric string). -/
def JsAge.toNumber : JsAge → Option Int
  | .undef => none
  | .num n => some n
  | .str s => strToNumber s

/-- JavaScript `age < k` where `k` is a number: the other operand is
coerced to a number first, and any comparison with `NaN` is false. -/
def JsAge.ltNum (a : JsAge) (k : Int) : Bool :=
  match a.toNumber with
  | some n => n < k
  | none => false

/-- JavaScript `age > k`, coercing as in `JsAge.ltNum`. -/
def JsAge.gtNum (a : JsAge) (k : Int) : Bool :=
  match a.toNumber with
  | some n => n > k
  | none => false

/-- A POST /students request body.  The destructuring on src/app.js
line 114 reads only `name`, `age` and `course`; `extra` holds every
other key-value pair the client may have sent. -/
structure CreateBody where
  name : Option String
  age : JsAge
  course : Option String
  extra : List (String × String)
deriving Repr, DecidableEq

/-- The check `!name || name.length < 2` (src/app.js line 116):
`undefined` and `""` are falsy, and `"".length < 2` anyway. -/
def nameCheckFails (name : Option String) : Bool :=
  match name with
  | none => true
  | some s => s.length < 2

/-- The check `!age || age < 16 || age > 100` (src/app.js line 122). -/
def ageCheckFails (age : JsAge) : Bool :=
  age.falsy || age.ltNum 16 || age.gtNum 100

/-- The check `!course` (src/app.js line 128). -/
def courseCheckFails (course : Option String) : Bool :=
  match course with
  | none => true
  | some s => s == ""

/-- The three structured 400 messages of the POST pre-checks
(src/app.js lines 119, 125, 129). -/
def nameMsg : String := "Name is required and must be at least 2 characters"

/-- The structured age message (src/app.js line 125). -/
def ageMsg : String := "Age is required and must be between 16 and 100"

/-- The structured course message (src/app.js line 129). -/
def courseMsg : String := "Course is required"

/-- Modelled from the collaborator's contract: the ValidationError
message for a course outside the schema enum (src/app.js lines 43-50). -/
def enumErrMsg (course : String) : String :=
  "Student validation failed: course: " ++ course ++
    " is not a valid enum value for path course"

/-- Modelled from the collaborator's contract: write-time schema
validation run by `save` (and, path-wise, by `runValidators`), in
schema path order name, age, course (src/app.js lines 27-56).  A `NaN`
age (`none`) fails the number cast. -/
def mongooseValidate (doc : StudentDoc) : Except String Unit :=
  if doc.name == "" then
    .error "Student validation failed: name: Path name is required"
  else if doc.name.length < 2 then
    .error "Student validation failed: name: is shorter than the minimum allowed length (2)"
  else
    match doc.age with
    | none => .error "Student validation failed: age: Cast to Number failed for value NaN at path age"
    | some n =>
      if n < 16 then
        .error "Student validation failed: age: is less than minimum allowed value (16)"
      else if n > 100 then
        .error "Student validation failed: age: is more than maximum allowed value (100)"
      else if courseEnum.contains doc.course then
        .ok ()
      else
        .error (enumErrMsg doc.course)

/-- Result of the POST handler: the response, the database afterwards,
and whether the collaborator's `save` was invoked at all. -/
structure CreateResult where
  resp : Response
  db : Db
  saveAttempted : Bool
deriving Repr, DecidableEq

/-- POST /students (src/app.js lines 112-143): the three pre-checks in
order, short-circuiting with 400 before any collaborator call; then
`new Student({name, age: Number(age), course})` and `save`, which
assigns `newId` and the timestamps; a save-time ValidationError is
caught and answered 400 with the error's message; success is 201 with
the saved document. -/
def createStudent (body : CreateBody) (db : Db) (newId : String) (now : Nat) :
    CreateResult :=
  if nameCheckFails body.name then
    { resp := { status := 400, body := .err nameMsg }, db := db, saveAttempted := false }
  else if ageCheckFails body.age then
    { resp := { status := 400, body := .err ageMsg }, db := db, saveAttempted := false }
  else if courseCheckFails body.course then
    { resp := { status := 400, body := .err courseMsg }, db := db, saveAttempted := false }
  else
    let doc : StudentDoc :=
      { _id := newId,
        name := body.name.getD "",
        age := body.age.toNumber,
        course := body.course.getD "",
        createdAt := some now,
        updatedAt := some now }
    match mongooseValidate doc with
    | .error msg =>
      { resp := { status := 400, body := .err msg }, db := db, saveAttempted := true }
    | .ok _ =>
      { resp := { status := 201, body := .studentOne doc },
        db := { docs := db.docs ++ [doc] }, saveAttempted := true }

/-- A PUT /students/:id request body: a partial field set; only
schema paths are applied by the collaborator (strict schema). -/
structure UpdateBody where
  name : Option String
  age : Option Int
  course : Option String
deriving Repr, DecidableEq

/-- Modelled from the collaborator's contract: the update validators
run by `runValidators: true`, checking only the paths being updated,
in schema order. -/
def updateValidators (body : UpdateBody) : Except String Unit :=
  match body.name with
  | some nm =>
    if nm == "" then
      .error "Validation failed: name: Path name is required"
    else if nm.length < 2 then
      .error "Validation failed: name: is shorter than the minimum allowed length (2)"
    else .ok ()
  | none => .ok ()
  >>= fun _ =>
  match body.age with
  | some n =>
    if n < 16 then
      .error "Validation failed: age: is less than minimum allowed value (16)"
    else if n > 100 then
      .error "Validation failed: age: is more than maximum allowed value (100)"
    else .ok ()
  | none => .ok ()
  >>= fun _ =>
  match body.course with
  | some cs =>
    if courseEnum.contains cs then .ok ()
    else .error (enumErrMsg cs)
  | none => .ok ()

/-- The document `old` with the supplied fields of `body` merged in and
`updatedAt` refreshed; unsupplied fields keep their prior values. -/
def mergeUpdate (old : StudentDoc) (body : UpdateBody) (now : Nat) : StudentDoc :=
  { old with
    name := body.name.getD old.name,
    age := match body.age with | some n => some n | none => old.age,
    course := body.course.getD old.course,
    updatedAt := some now }

/-- Modelled from the collaborator's contract:
`Student.findByIdAndUpdate(id, body, {new: true, runValidators: true})`
throws on a malformed identifier or a validator failure, resolves to
`null` when no document matches, and otherwise applies the merge and
resolves to the updated document. -/
def findByIdAndUpdate (id : String) (body : UpdateBody) (db : Db) (now : Nat) :
    Except String (Option StudentDoc × Db) :=
  if validObjectId id then
    match db.docs.find? (fun d => d._id == id) with
    | none => .ok (none, db)
    | some old =>
      match updateValidators body with
      | .error msg => .error msg
      | .ok _ =>
        let updated := mergeUpdate old body now
        .ok (some updated,
          { docs := db.docs.map (fun d => if d._id == id then updated else d) })
  else
    .error (castErrMsg id)

/-- PUT /students/:id (src/app.js lines 146-161): a thrown error
(CastError or ValidationError) is caught and answered 400 with the
error's message; `null` yields 404; success is 200 with the updated
document. -/
def updateStudent (id : String) (body : UpdateBody) (db : Db) (now : Nat) :
    Response × Db :=
  match findByIdAndUpdate id body db now with
  | .error msg => ({ status := 400, body := .err msg }, db)
  | .ok (none, db') => ({ status := 404, body := .err "Student not found" }, db')
  | .ok (some s, db') => ({ status := 200, body := .studentOne s }, db')

/-- Modelled from the collaborator's contract:
`Student.findByIdAndDelete(id)` throws on a malformed identifier,
resolves to `null` when no document matches, and otherwise removes the
matching document and resolves to its prior state. -/
def findByIdAndDelete (id : String) (db : Db) :
    Except String (Option StudentDoc × Db) :=
  if validObjectId id then
    match db.docs.find? (fun d => d._id == id) with
    | none => .ok (none, db)
    | some s => .ok (some s, { docs := db.docs.filter (fun d => !(d._id == id)) })
  else
    .error (castErrMsg id)

/-- DELETE /students/:id, given the collaborator call's outcome
(src/app.js lines 164-179): any thrown error is caught and answered
500 with the error's message; `null` yields 404; success is 200 with
`{message: "Student deleted", student}`. -/
def deleteStudent (outcome : Except String (Option StudentDoc × Db)) (db : Db) :
    Response × Db :=
  match outcome with
  | .error msg => ({ status := 500, body := .err msg }, db)
  | .ok (none, db') => ({ status := 404, body := .err "Student not found" }, db')
  | .ok (some s, db') => ({ status := 200, body := .deleteOk "Student deleted" s }, db')

/-- DELETE /students/:id end to end: the handler applied to the
collaborator's `findByIdAndDelete` outcome. -/
def deleteStudentById (id : String) (db : Db) : Response × Db :=
  deleteStudent (findByIdAndDelete id db) db

/-!  Theorems settling the claims. -/

/-- C1, counterexample: GET /students does NOT replace an empty
successful fetch by the fallback dataset — a successful `Student.find()`
returning zero documents is answered 200 with the empty list, not with
the 3 fallback Students. -/
theorem C1_empty_list_not_replaced :
    listStudents (.ok []) = { status := 200, body := .studentList [] } ∧
    Body.studentList [] ≠ Body.studentList sampleStudents := by
  constructor
  · rfl
  · decide

/-- C1, amended: every List and aggregate-info response has status 200;
a FAILED fetch is replaced by the 3-element fallback dataset on both
endpoints (so a disconnected collaborator yields exactly the 3 fallback
Students), and GET / additionally replaces an EMPTY successful fetch by
the fallback, while GET /students returns a successful fetch as-is,
empty included. -/
theorem C1_degradation_policy :
    (∀ outcome : FindOutcome, (listStudents outcome).status = 200) ∧
    listStudents .fail = { status := 200, body := .studentList sampleStudents } ∧
    (∀ students : List StudentDoc,
      listStudents (.ok students) = { status := 200, body := .studentList students }) ∧
    (∀ readyState : Nat,
      (rootHandler .fail readyState).status = 200 ∧
      (rootHandler .fail readyState).body.infoStudents = sampleStudents) ∧
    (∀ readyState : Nat,
      (rootHandler (.ok []) readyState).status = 200 ∧
      (rootHandler (.ok []) readyState).body.infoStudents = sampleStudents) ∧
    sampleStudents.length = 3 := by
  refine ⟨fun outcome => ?_, rfl, fun students => rfl,
    fun readyState => ⟨rfl, rfl⟩, fun readyState => ⟨rfl, rfl⟩, rfl⟩
  cases outcome <;> rfl

/-- C2, counterexample: a malformed identifier on Delete does NOT yield
400 — `findByIdAndDelete` throws a CastError, the handler's catch
answers 500 (src/app.js line 177). -/
theorem C2_delete_malformed_id_is_500 :
    validObjectId "not-an-id" = false ∧
    (deleteStudentById "not-an-id" { docs := sampleStudents }).1.status = 500 ∧
    (deleteStudentById "not-an-id" { docs := sampleStudents }).1.status ≠ 400 := by
  refine ⟨by decide, by decide, by decide⟩

/-- C2, amended: an identifier that fails the collaborator's id-format
rules yields 400 on Get-by-id and Update, but 500 on Delete, whose
catch-all uses a server-error status. -/
theorem C2_malformed_id_statuses (id : String) (body : UpdateBody) (db : Db)
    (now : Nat) (h : validObjectId id = false) :
    (getStudent id db).status = 400 ∧
    (updateStudent id body db now).1.status = 400 ∧
    (deleteStudentById id db).1.status = 500 := by
  refine ⟨?_, ?_, ?_⟩ <;>
    simp [getStudent, updateStudent, deleteStudentById, deleteStudent,
      findById, findByIdAndUpdate, findByIdAndDelete, h]

/-- C2 witness: the amended statement applied at the concrete malformed
identifier "not-an-id". -/
theorem C2_malformed_id_statuses_witness :
    (getStudent "not-an-id" { docs := sampleStudents }).status = 400 ∧
    (updateStudent "not-an-id" { name := none, age := some 25, course := none }
      { docs := sampleStudents } 7).1.status = 400 ∧
    (deleteStudentById "not-an-id" { docs := sampleStudents }).1.status = 500 :=
  C2_malformed_id_statuses "not-an-id"
    { name := none, age := some 25, course := none }
    { docs := sampleStudents } 7 (by decide)

/-- C5: GET /students/:id answers 400 "Invalid student ID" on a
malformed identifier (never 500), 404 "Student not found" on a
well-formed identifier matching no record, and 200 with exactly the
matching Student otherwise. -/
theorem C5_get_by_id (id : String) (db : Db) :
    (validObjectId id = false →
      getStudent id db = { status := 400, body := .err "Invalid student ID" }) ∧
    (validObjectId id = true →
      db.docs.find? (fun d => d._id == id) = none →
      getStudent id db = { status := 404, body := .err "Student not found" }) ∧
    (∀ s : StudentDoc, validObjectId id = true →
      db.docs.find? (fun d => d._id == id) = some s →
      getStudent id db = { status := 200, body := .studentOne s }) ∧
    (getStudent id db).status ≠ 500 := by
  refine ⟨fun h => by simp [getStudent, findById, h],
    fun h hn => by simp [getStudent, findById, h, hn],
    fun s h hs => by simp [getStudent, findById, h, hs], ?_⟩
  unfold getStudent findById
  rcases hv : validObjectId id with _ | _
  · simp
  · rcases hf : db.docs.find? (fun d => d._id == id) with _ | s <;> simp [hf]

/-- C5 witness: the three branches at concrete inputs — a malformed id,
a well-formed id absent from the collection, and Alice Johnson's id. -/
theorem C5_get_by_id_witness :
    getStudent "not-an-id" { docs := sampleStudents }
      = { status := 400, body := .err "Invalid student ID" } ∧
    getStudent "686f66da1801707c14d09e63" { docs := sampleStudents }
      = { status := 404, body := .err "Student not found" } ∧
    getStudent "686f66da1801707c14d09e60" { docs := sampleStudents }
      = { status := 200,
          body := .studentOne ⟨"686f66da1801707c14d09e60", "Alice Johnson",
            some 20, "Computer Science", none, none⟩ } :=
  ⟨(C5_get_by_id "not-an-id" { docs := sampleStudents }).1 (by decide),
   (C5_get_by_id "686f66da1801707c14d09e63" { docs := sampleStudents }).2.1
     (by decide) (by decide),
   (C5_get_by_id "686f66da1801707c14d09e60" { docs := sampleStudents }).2.2.1
     _ (by decide) (by decide)⟩

/-- C3: POST /students runs its three pre-checks before any
collaborator call, in the order name, then age, then course,
short-circuiting on the first failure with a 400 carrying the
corresponding structured message; on any pre-check failure the database
is unchanged and the collaborator's save is never invoked. -/
theorem C3_create_prevalidation (body : CreateBody) (db : Db) (newId : String)
    (now : Nat) :
    (nameCheckFails body.name = true →
      createStudent body db newId now = ⟨⟨400, .err nameMsg⟩, db, false⟩) ∧
    (nameCheckFails body.name = false → ageCheckFails body.age = true →
      createStudent body db newId now = ⟨⟨400, .err ageMsg⟩, db, false⟩) ∧
    (nameCheckFails body.name = false → ageCheckFails body.age = false →
      courseCheckFails body.course = true →
      createStudent body db newId now = ⟨⟨400, .err courseMsg⟩, db, false⟩) := by
  refine ⟨fun h1 => ?_, fun h1 h2 => ?_, fun h1 h2 h3 => ?_⟩ <;>
    simp [createStudent, h1, *]

/-- C3 witness: the three pre-check failures at concrete inputs — a
1-character name, age 12, and a missing course. -/
theorem C3_create_prevalidation_witness :
    createStudent ⟨some "D", .num 21, some "Computer Science", []⟩
        ⟨[]⟩ "686f66da1801707c14d09e63" 0
      = ⟨⟨400, .err nameMsg⟩, ⟨[]⟩, false⟩ ∧
    createStudent ⟨some "Dana Kim", .num 12, some "Computer Science", []⟩
        ⟨[]⟩ "686f66da1801707c14d09e63" 0
      = ⟨⟨400, .err ageMsg⟩, ⟨[]⟩, false⟩ ∧
    createStudent ⟨some "Dana Kim", .num 21, none, []⟩
        ⟨[]⟩ "686f66da1801707c14d09e63" 0
      = ⟨⟨400, .err courseMsg⟩, ⟨[]⟩, false⟩ :=
  ⟨(C3_create_prevalidation _ _ _ _).1 (by decide),
   (C3_create_prevalidation _ _ _ _).2.1 (by decide) (by decide),
   (C3_create_prevalidation _ _ _ _).2.2 (by decide) (by decide) (by decide)⟩

/-- The collaborator's enum ValidationError message has a fixed prefix
and suffix totalling 77 characters around the offending course value. -/
theorem enumErrMsg_length (cs : String) : (enumErrMsg cs).length = 77 + cs.length := by
  have h1 : ("Student validation failed: course: " : String).length = 35 := by decide
  have h2 : (" is not a valid enum value for path course" : String).length = 42 := by decide
  simp [enumErrMsg, String.length_append, h1, h2]
  omega

/-- C4: a Create input whose course is a non-empty string outside the
schema enum passes all three handler pre-checks, reaches the
collaborator's save, and fails only its write-time schema validation:
the response is 400 carrying the collaborator's enum ValidationError
message, which differs from each of the three structured pre-check
messages, and nothing is persisted. -/
theorem C4_course_enum_only_at_save (nm : String) (n : Int) (cs : String)
    (extra : List (String × String)) (db : Db) (newId : String) (now : Nat)
    (h1 : nameCheckFails (some nm) = false)
    (h2 : ageCheckFails (.num n) = false)
    (h3 : cs ≠ "")
    (h4 : courseEnum.contains cs = false) :
    createStudent ⟨some nm, .num n, some cs, extra⟩ db newId now
      = ⟨⟨400, .err (enumErrMsg cs)⟩, db, true⟩ ∧
    enumErrMsg cs ≠ nameMsg ∧ enumErrMsg cs ≠ ageMsg ∧ enumErrMsg cs ≠ courseMsg := by
  have hlen : ¬ nm.length < 2 := by simpa [nameCheckFails] using h1
  have hne : (nm == "") = false := by
    rw [beq_eq_false_iff_ne]
    intro he
    subst he
    exact hlen (by decide)
  have h2' : ¬ n < 16 ∧ ¬ n > 100 := by
    have h := h2
    simp [ageCheckFails, JsAge.falsy, JsAge.ltNum, JsAge.gtNum, JsAge.toNumber] at h
    omega
  have hcs : (cs == "") = false := beq_eq_false_iff_ne.mpr h3
  have hmem : ¬ cs ∈ courseEnum := by simpa using h4
  refine ⟨?_, ?_, ?_, ?_⟩
  · simp [createStudent, h1, h2, courseCheckFails, hcs, mongooseValidate,
      JsAge.toNumber, hne, hlen, h2'.1, h2'.2, hmem]
  · intro h
    have := congrArg String.length h
    rw [enumErrMsg_length] at this
    have hn : nameMsg.length = 50 := by decide
    omega
  · intro h
    have := congrArg String.length h
    rw [enumErrMsg_length] at this
    have hn : ageMsg.length = 46 := by decide
    omega
  · intro h
    have := congrArg String.length h
    rw [enumErrMsg_length] at this
    have hn : courseMsg.length = 18 := by decide
    omega

/-- C4 witness: the statement applied at the concrete non-enum course
"Astrophysics" with valid name and age. -/
theorem C4_course_enum_only_at_save_witness :
    createStudent ⟨some "Dana Kim", .num 21, some "Astrophysics", []⟩
        ⟨sampleStudents⟩ "686f66da1801707c14d09e63" 9
      = ⟨⟨400, .err (enumErrMsg "Astrophysics")⟩, ⟨sampleStudents⟩, true⟩ ∧
    enumErrMsg "Astrophysics" ≠ nameMsg ∧
    enumErrMsg "Astrophysics" ≠ ageMsg ∧
    enumErrMsg "Astrophysics" ≠ courseMsg :=
  C4_course_enum_only_at_save "Dana Kim" 21 "Astrophysics" []
    ⟨sampleStudents⟩ "686f66da1801707c14d09e63" 9
    (by decide) (by decide) (by decide) (by decide)

/-- C6: a Create input passing the three pre-checks and accepted by the
collaborator's schema validation is answered 201 with the saved
Student: same name and course as supplied, the age coerced to the
numeric value of the body's age field, the collaborator-assigned
identifier, and createdAt/updatedAt timestamps set to the save time;
the document is appended to the collection. -/
theorem C6_create_success (body : CreateBody) (db : Db) (newId : String)
    (now : Nat) (n : Int)
    (h1 : nameCheckFails body.name = false)
    (h2 : ageCheckFails body.age = false)
    (h3 : courseCheckFails body.course = false)
    (h4 : courseEnum.contains (body.course.getD "") = true)
    (h5 : body.age.toNumber = some n) :
    createStudent body db newId now
      = ⟨⟨201, .studentOne ⟨newId, body.name.getD "", some n,
            body.course.getD "", some now, some now⟩⟩,
         ⟨db.docs ++ [⟨newId, body.name.getD "", some n,
            body.course.getD "", some now, some now⟩]⟩,
         true⟩ := by
  rcases hb : body.name with _ | nm
  · rw [hb] at h1; simp [nameCheckFails] at h1
  rcases hc : body.course with _ | cs
  · rw [hc] at h3; simp [courseCheckFails] at h3
  rw [hb] at h1
  rw [hc] at h3 h4
  have hlen : ¬ nm.length < 2 := by simpa [nameCheckFails] using h1
  have hne : (nm == "") = false := by
    rw [beq_eq_false_iff_ne]
    intro he
    subst he
    exact hlen (by decide)
  have hrange : ¬ n < 16 ∧ ¬ n > 100 := by
    have h := h2
    simp [ageCheckFails, JsAge.falsy, JsAge.ltNum, JsAge.gtNum, h5] at h
    omega
  have hmem : cs ∈ courseEnum := by simpa using h4
  simp [createStudent, h1, h2, h3, hb, hc, mongooseValidate, h5, hne, hlen,
    hrange.1, hrange.2, hmem]

/-- C6 witness: a valid creation whose age arrives as the string "21"
and is stored as the number 21, with an extra body field present and
ignored. -/
theorem C6_create_success_witness :
    createStudent ⟨some "Dana Kim", .str "21", some "Civil Engineering",
        [("isAdmin", "true")]⟩ ⟨sampleStudents⟩ "686f66da1801707c14d09e63" 9
      = ⟨⟨201, .studentOne ⟨"686f66da1801707c14d09e63", "Dana Kim", some 21,
            "Civil Engineering", some 9, some 9⟩⟩,
         ⟨sampleStudents ++ [⟨"686f66da1801707c14d09e63", "Dana Kim", some 21,
            "Civil Engineering", some 9, some 9⟩]⟩,
         true⟩ :=
  C6_create_success ⟨some "Dana Kim", .str "21", some "Civil Engineering",
      [("isAdmin", "true")]⟩ ⟨sampleStudents⟩ "686f66da1801707c14d09e63" 9 21
    (by decide) (by decide) (by decide) (by decide) (by decide)

/-- C7: PUT /students/:id answers 400 with the collaborator's message
on a malformed identifier or a write-time validator failure, 404 on a
well-formed identifier matching no record, and 200 with the updated
Student on success, where supplied fields are merged in and every
unsupplied field keeps its prior value. -/
theorem C7_update (id : String) (body : UpdateBody) (db : Db) (now : Nat) :
    (validObjectId id = false →
      updateStudent id body db now = (⟨400, .err (castErrMsg id)⟩, db)) ∧
    (validObjectId id = true →
      db.docs.find? (fun d => d._id == id) = none →
      updateStudent id body db now = (⟨404, .err "Student not found"⟩, db)) ∧
    (∀ old : StudentDoc, ∀ msg : String, validObjectId id = true →
      db.docs.find? (fun d => d._id == id) = some old →
      updateValidators body = .error msg →
      updateStudent id body db now = (⟨400, .err msg⟩, db)) ∧
    (∀ old : StudentDoc, validObjectId id = true →
      db.docs.find? (fun d => d._id == id) = some old →
      updateValidators body = .ok () →
      (updateStudent id body db now).1
        = ⟨200, .studentOne (mergeUpdate old body now)⟩) ∧
    (∀ old : StudentDoc,
      (body.name = none → (mergeUpdate old body now).name = old.name) ∧
      (∀ nm, body.name = some nm → (mergeUpdate old body now).name = nm) ∧
      (body.age = none → (mergeUpdate old body now).age = old.age) ∧
      (∀ a, body.age = some a → (mergeUpdate old body now).age = some a) ∧
      (body.course = none → (mergeUpdate old body now).course = old.course) ∧
      (∀ cs, body.course = some cs → (mergeUpdate old body now).course = cs) ∧
      (mergeUpdate old body now)._id = old._id ∧
      (mergeUpdate old body now).createdAt = old.createdAt) := by
  refine ⟨fun h => by simp [updateStudent, findByIdAndUpdate, h],
    fun h hn => by simp [updateStudent, findByIdAndUpdate, h, hn],
    fun old msg h hf he => by simp [updateStudent, findByIdAndUpdate, h, hf, he],
    fun old h hf hok => by simp [updateStudent, findByIdAndUpdate, h, hf, hok],
    fun old => ⟨fun h => by simp [mergeUpdate, h],
      fun nm h => by simp [mergeUpdate, h],
      fun h => by simp [mergeUpdate, h],
      fun a h => by simp [mergeUpdate, h],
      fun h => by simp [mergeUpdate, h],
      fun cs h => by simp [mergeUpdate, h],
      rfl, rfl⟩⟩

/-- C7 witness: updating Alice Johnson with only {age: 25} answers 200
with age 25 and all other fields unchanged (updatedAt refreshed). -/
theorem C7_update_witness :
    (updateStudent "686f66da1801707c14d09e60"
        ⟨none, some 25, none⟩ ⟨sampleStudents⟩ 7).1
      = ⟨200, .studentOne ⟨"686f66da1801707c14d09e60", "Alice Johnson",
          some 25, "Computer Science", none, some 7⟩⟩ :=
  (C7_update "686f66da1801707c14d09e60" ⟨none, some 25, none⟩
      ⟨sampleStudents⟩ 7).2.2.2.1
    ⟨"686f66da1801707c14d09e60", "Alice Johnson", some 20, "Computer Science",
      none, none⟩
    (by decide) (by decide) rfl

/-- C8: DELETE /students/:id answers 404 on a well-formed identifier
matching no record; on success it removes the record and answers 200
with a message and the deleted Student's prior state, so a subsequent
Get on the same identifier answers 404; any thrown collaborator error
is answered 500. -/
theorem C8_delete (id : String) (db : Db) :
    (validObjectId id = true →
      db.docs.find? (fun d => d._id == id) = none →
      deleteStudentById id db = (⟨404, .err "Student not found"⟩, db)) ∧
    (∀ s : StudentDoc, validObjectId id = true →
      db.docs.find? (fun d => d._id == id) = some s →
      deleteStudentById id db
          = (⟨200, .deleteOk "Student deleted" s⟩,
             ⟨db.docs.filter (fun d => !(d._id == id))⟩) ∧
        getStudent id (deleteStudentById id db).2
          = ⟨404, .err "Student not found"⟩) ∧
    (∀ msg : String, ∀ db' : Db,
      deleteStudent (.error msg) db' = (⟨500, .err msg⟩, db')) := by
  refine ⟨fun h hn => by simp [deleteStudentById, deleteStudent, findByIdAndDelete, h, hn],
    fun s h hf => ?_, fun msg db' => rfl⟩
  have hdel : deleteStudentById id db
      = (⟨200, .deleteOk "Student deleted" s⟩,
         ⟨db.docs.filter (fun d => !(d._id == id))⟩) := by
    simp [deleteStudentById, deleteStudent, findByIdAndDelete, h, hf]
  refine ⟨hdel, ?_⟩
  rw [hdel]
  have hnone : (db.docs.filter (fun d => !(d._id == id))).find?
      (fun d => d._id == id) = none := by
    rw [List.find?_eq_none]
    intro x hx
    rw [List.mem_filter] at hx
    simpa using hx.2
  simp [getStudent, findById, h, hnone]

/-- C8 witness: deleting Alice Johnson succeeds with her prior state in
the body, and a subsequent Get on her identifier answers 404. -/
theorem C8_delete_witness :
    deleteStudentById "686f66da1801707c14d09e60" ⟨sampleStudents⟩
      = (⟨200, .deleteOk "Student deleted"
            ⟨"686f66da1801707c14d09e60", "Alice Johnson", some 20,
              "Computer Science", none, none⟩⟩,
         ⟨sampleStudents.filter (fun d => !(d._id == "686f66da1801707c14d09e60"))⟩) ∧
    getStudent "686f66da1801707c14d09e60"
        (deleteStudentById "686f66da1801707c14d09e60" ⟨sampleStudents⟩).2
      = ⟨404, .err "Student not found"⟩ :=
  (C8_delete "686f66da1801707c14d09e60" ⟨sampleStudents⟩).2.1
    ⟨"686f66da1801707c14d09e60", "Alice Johnson", some 20, "Computer Science",
      none, none⟩
    (by decide) (by decide)

/-- C9, counterexample: when the listing attempt fails while the
collaborator still reports readyState 1, GET / uses the fallback
dataset but reports the connection state as "Connected ✅", not as
disconnected. -/
theorem C9_listing_error_reports_connected :
    (rootHandler .fail 1).body.infoStudents = sampleStudents ∧
    (rootHandler .fail 1).body.infoDatabase = "Connected ✅" ∧
    (rootHandler .fail 1).status = 200 ∧
    "Connected ✅" ≠ "Disconnected ❌" :=
  ⟨rfl, rfl, rfl, by decide⟩

/-- C9, amended: every GET / response has status 200 and carries the
welcome message, the server-active status, the connection state
computed from the collaborator's readyState observed at request time, a
total count equal to the length of the response's student list, the
student list, the static endpoints description and the static example
creation payload; a failed listing attempt (and an empty one) is
answered with the fallback dataset, while the reported connection state
remains whatever readyState says — connected included. -/
theorem C9_root_payload (outcome : FindOutcome) (readyState : Nat) :
    (rootHandler outcome readyState).status = 200 ∧
    (rootHandler outcome readyState).body.infoMessage
      = "🚀 Student Management System is running!" ∧
    (rootHandler outcome readyState).body.infoStatus = "Server is active" ∧
    (rootHandler outcome readyState).body.infoDatabase
      = (if readyState = 1 then "Connected ✅" else "Disconnected ❌") ∧
    (rootHandler outcome readyState).body.infoTotal
      = ((rootHandler outcome readyState).body.infoStudents).length ∧
    (rootHandler outcome readyState).body.infoEndpoints = endpointsInfo ∧
    (rootHandler outcome readyState).body.infoExample = exampleCreatePayload ∧
    (rootHandler .fail readyState).body.infoStudents = sampleStudents ∧
    (rootHandler (.ok []) readyState).body.infoStudents = sampleStudents :=
  ⟨rfl, rfl, rfl, rfl, rfl, rfl, rfl, rfl, rfl⟩

/-- C10: the POST handler reads only `name`, `age` and `course` from
the request body; every other client-supplied key is ignored — the
response, the resulting database and the save decision are identical
for any two bodies agreeing on those three fields. -/
theorem C10_extra_body_fields_ignored (name : Option String) (age : JsAge)
    (course : Option String) (extra₁ extra₂ : List (String × String))
    (db : Db) (newId : String) (now : Nat) :
    createStudent { name := name, age := age, course := course, extra := extra₁ }
        db newId now
      = createStudent { name := name, age := age, course := course, extra := extra₂ }
        db newId now := rfl

end StudentApp
